import Mathlib

/-!
Verification development for the Mimora waitlist landing page.

The definitions below are a shallow embedding of the TypeScript source:

* the `api/send-email` serverless handler (rate limiter, sanitizer, gating
  logic), from `src/components/landing_page/AppDownloadSection.tsx`
  lines 120-343;
* the waitlist slider (validation, HubSpot submission, local-storage cache,
  submit orchestration), from `WaitlistSlider.tsx`;
* the email client service (`sendWelcomeEmail`).

JavaScript strings are modelled as Lean `String` (code points rather than
UTF-16 units; identical on the inputs considered here), `Date.now()`
timestamps as `Nat` (JS subtraction `now - time` on an earlier `time` is
non-negative, and for a later `time` both the JS negative result and the
truncated `Nat` result are `< 3600000`, so the filter below agrees),
`Map<string, number[]>` as an association list, and network / storage
effects as explicitly injected outcome values.  The JS string primitives
(`trim`, `length`, `split`, `toLowerCase`, ...) are spelled out over the
character list of the string so that every definition evaluates by kernel
reduction.
-/

set_option autoImplicit false
set_option linter.unusedVariables false

namespace Mimora

/-! ### JS string primitives -/

/-- `s.length` (JS counts UTF-16 units; modelled as the character count). -/
def jsLength (s : String) : Nat :=
  s.toList.length

/-- `s.trim()`: drop whitespace from both ends. -/
def jsTrim (s : String) : String :=
  ⟨((s.toList.dropWhile Char.isWhitespace).reverse.dropWhile
      Char.isWhitespace).reverse⟩

/-- `s.toLowerCase()` (ASCII case mapping, which covers every input that
appears here). -/
def jsToLower (s : String) : String :=
  ⟨s.toList.map Char.toLower⟩

/-- `s.split(sep)` on a one-character separator, over character lists:
`[[]]` for the empty string, and a new piece begun at every separator. -/
def splitAtChar (sep : Char) : List Char → List (List Char)
  | [] => [[]]
  | c :: rest =>
      match splitAtChar sep rest with
      | [] => [[c]]
      | h :: t => if c = sep then [] :: h :: t else (c :: h) :: t

/-! ### Rate limiter (`isRateLimited`, endpoint lines 216-234) -/

/-- The in-memory rate-limit store `emailAttempts : Map<string, number[]>`. -/
abbrev Ledger := List (String × List Nat)

/-- `emailAttempts.get(email) || []`: first binding for the key, else `[]`
(a JS `Map` holds at most one binding per key). -/
def Ledger.get (m : Ledger) (k : String) : List Nat :=
  match m with
  | [] => []
  | (k2, v) :: rest => if k2 = k then v else Ledger.get rest k

/-- `emailAttempts.set(email, v)`: replace the binding for the key, or append
a fresh one. -/
def Ledger.set (m : Ledger) (k : String) (v : List Nat) : Ledger :=
  match m with
  | [] => [(k, v)]
  | (k2, v2) :: rest =>
      if k2 = k then (k, v) :: rest else (k2, v2) :: Ledger.set rest k v

/-- `isRateLimited` from the email endpoint.  The implicit inputs `Date.now()`
and the module-level `emailAttempts` map become explicit arguments; the result
is the returned boolean (`true` = rate-limited) paired with the map after the
call.  Note that `emailAttempts.set` runs only on the allow path; on the
reject path the map is left untouched. -/
def isRateLimited (now : Nat) (email : String) (m : Ledger) : Bool × Ledger :=
  let attempts := m.get email
  let recentAttempts := attempts.filter (fun time => now - time < 3600000)
  if recentAttempts.length ≥ 3 then
    (true, m)
  else
    (false, m.set email (recentAttempts ++ [now]))

/-! ### Sanitizer (`sanitizeInput`, endpoint lines 236-242) -/

/-- `.replace(/[<>]/g, "")`: drop every `<` and `>` character. -/
def jsReplaceAngleAll (s : String) : String :=
  ⟨s.toList.filter (fun c => !(c == '<' || c == '>'))⟩

/-- `.substring(0, n)`: the first `n` characters (all of them when shorter). -/
def jsSubstringTo (n : Nat) (s : String) : String :=
  ⟨s.toList.take n⟩

/-- `sanitizeInput` from the email endpoint: trim, strip angle brackets,
truncate to 500 characters, chained in source order. -/
def sanitizeInput (input : String) : String :=
  jsSubstringTo 500 (jsReplaceAngleAll (jsTrim input))

/-! ### The shared email regex and the phone regex -/

/-- `/^[^\s@]+@[^\s@]+\.[^\s@]+$/.test s` (used both by `validate` and by the
email endpoint).  The anchored pattern matches exactly the strings of the form
`A ++ "@" ++ D` where `A` is nonempty without whitespace or `@`, and `D` is
without whitespace or `@` and contains a dot that is neither its first nor its
last character (the character class admits dots, so any inner dot can serve as
the `\.` of the pattern).  Since `@` is excluded from every class, a matching
string contains exactly one `@`, i.e. splitting at `@` yields two pieces. -/
def emailRegexTest (s : String) : Bool :=
  match splitAtChar '@' s.toList with
  | [localPart, domain] =>
      !localPart.isEmpty &&
      localPart.all (fun c => !c.isWhitespace) &&
      domain.all (fun c => !c.isWhitespace) &&
      ((domain.drop 1).dropLast.contains '.')
  | _ => false

/-- A character admitted by the class `[\d\s\-()]` of the phone regex. -/
def isPhoneChar (c : Char) : Bool :=
  c.isDigit || c.isWhitespace || c == '-' || c == '(' || c == ')'

/-- `/^\+?[\d\s\-()]{7,15}$/.test s`: an optional leading `+` (the class does
not admit `+`, so a leading `+` must be consumed by `\+?`), then 7 to 15
characters from the class. -/
def phoneRegexTest (s : String) : Bool :=
  let rest :=
    match s.toList with
    | '+' :: r => r
    | l => l
  decide (7 ≤ rest.length) && decide (rest.length ≤ 15) && rest.all isPhoneChar

/-! ### Form validation (`validate`, WaitlistSlider lines 85-111) -/

/-- The slider form state (`category` keeps the literal-union type as a plain
string, with `""` for the unselected state). -/
structure FormData where
  name : String
  email : String
  phone : String
  category : String
deriving DecidableEq

/-- `FormErrors`: in the source an object whose keys exist only when the
corresponding field has an error; each field here is `some message` exactly
when `validate` assigned that key. -/
structure FormErrors where
  name : Option String
  email : Option String
  phone : Option String
  category : Option String
deriving DecidableEq

/-- `Object.keys(errors).length` for a `FormErrors` object: the keys are
exactly the fields that were assigned. -/
def FormErrors.keyCount (e : FormErrors) : Nat :=
  (if e.name.isSome then 1 else 0) + (if e.email.isSome then 1 else 0) +
  (if e.phone.isSome then 1 else 0) + (if e.category.isSome then 1 else 0)

/-- `validate` from `WaitlistSlider.tsx`.  Each field is assigned by an
independent if/else-if chain; JS string truthiness `!s` is `s = ""`. -/
def validate (data : FormData) : FormErrors :=
  { name :=
      if jsTrim data.name = "" then some "Name is required"
      else if jsLength (jsTrim data.name) < 2 then
        some "Name must be at least 2 characters"
      else none
  , email :=
      if jsTrim data.email = "" then some "Email is required"
      else if !emailRegexTest data.email then some "Enter a valid email address"
      else none
  , phone :=
      if jsTrim data.phone = "" then some "Phone number is required"
      else if !phoneRegexTest (jsTrim data.phone) then
        some "Enter a valid phone number"
      else none
  , category :=
      if data.category = "" then some "Please select a category"
      else none }

/-! ### Email template substitutions (`getEmailTemplate`, endpoint
lines 124-214)

The template is a fixed HTML document with exactly two interpolation points:
`${firstName}` and `${roleText}`.  Only those two computed values are
modelled; the surrounding HTML is a string constant of the source. -/

/-- `const firstName = name.split(" ")[0]`: the first piece of splitting at a
space is the prefix of the string before its first space (for a string with
no space, the whole string; for the empty string, the empty string). -/
def templateFirstName (name : String) : String :=
  ⟨name.toList.takeWhile (fun c => !(c == ' '))⟩

/-- `const roleText = role === "artist" ? "Artist / Service Provider" :
"Customer"`. -/
def templateRoleText (role : String) : String :=
  if role = "artist" then "Artist / Service Provider" else "Customer"

/-! ### The request handler (endpoint lines 244-343)

The handler reads `req.method`, `req.headers.origin` and the body fields
`name` / `email` / `role`; the CORS `setHeader` calls only decorate the
response headers and are not part of the modelled response body.  The body
fields are modelled as already-destructured optional strings (`none` for a
JS `undefined`).  The environment gate reads `SMTP_USER` / `SMTP_PASS`
(`SMTP_HOST`, `SMTP_PORT`, `FROM_NAME`, `FROM_EMAIL` have defaults and gate
nothing).  The `transporter.sendMail` await either resolves (`sendOk =
true`) or throws into the catch-all (`sendOk = false`, status 500). -/

/-- JS truthiness test `!x` for a possibly-undefined string: true exactly for
`undefined` and `""`. -/
def falsy (o : Option String) : Bool :=
  match o with
  | none => true
  | some s => s == ""

structure EmailRequest where
  method : String
  origin : String
  name : Option String
  email : Option String
  role : Option String
deriving DecidableEq

structure SmtpEnv where
  smtpUser : Option String
  smtpPass : Option String
deriving DecidableEq

/-- The JSON body of a handler response (`success` is present-and-true only
in the 200 branch; `error` / `message` mirror the literal payloads). -/
structure EmailHandlerResponse where
  status : Nat
  success : Bool
  error : Option String
  message : Option String
deriving DecidableEq

/-- The serverless `handler`, as the response paired with the rate-limit map
after the request.  Each gate mirrors one early return of the source, in
source order. -/
def handler (req : EmailRequest) (env : SmtpEnv) (now : Nat) (m : Ledger)
    (sendOk : Bool) : EmailHandlerResponse × Ledger :=
  if req.method = "OPTIONS" then
    (⟨200, false, none, none⟩, m)
  else if req.method ≠ "POST" then
    (⟨405, false, some "Method not allowed", none⟩, m)
  else if falsy env.smtpUser || falsy env.smtpPass then
    (⟨500, false, some "Server configuration error", none⟩, m)
  else if falsy req.name || falsy req.email || falsy req.role then
    (⟨400, false, some "Missing required fields", none⟩, m)
  else
    let sanitizedName := sanitizeInput (req.name.getD "")
    let sanitizedEmail := jsToLower (sanitizeInput (req.email.getD ""))
    let sanitizedRole := sanitizeInput (req.role.getD "")
    if !emailRegexTest sanitizedEmail then
      (⟨400, false, some "Invalid email format", none⟩, m)
    else if !(["artist", "customer"].contains sanitizedRole) then
      (⟨400, false, some "Invalid role", none⟩, m)
    else if jsLength sanitizedName < 2 || jsLength sanitizedName > 100 then
      (⟨400, false, some "Invalid name length", none⟩, m)
    else
      let rl := isRateLimited now sanitizedEmail m
      if rl.1 then
        (⟨429, false, some "Too many requests. Please try again later.", none⟩,
         rl.2)
      else if sendOk then
        (⟨200, true, none, some "Email sent successfully"⟩, rl.2)
      else
        (⟨500, false, some "Failed to send email", none⟩, rl.2)

/-! ### Local submission cache (WaitlistSlider lines 5-31) -/

structure StoredWaitlistData where
  name : String
  email : String
  submittedAt : String
deriving DecidableEq

/-- `storeSubmission(name, email)`: the record written to local storage,
with `new Date().toISOString()` passed in explicitly. -/
def storeSubmission (name email nowIso : String) : StoredWaitlistData :=
  ⟨name, email, nowIso⟩

/-- A JSON value, for what `JSON.parse` can return. -/
inductive JsonValue where
  | null
  | bool (b : Bool)
  | num (n : Int)
  | str (s : String)
  | arr (items : List JsonValue)
  | obj (fields : List (String × JsonValue))

/-- First binding of a key in a parsed JSON object. -/
def jsonField (fields : List (String × JsonValue)) (k : String) :
    Option JsonValue :=
  match fields with
  | [] => none
  | (k2, v) :: rest => if k2 = k then some v else jsonField rest k

def JsonValue.isStr : JsonValue → Bool
  | .str _ => true
  | _ => false

/-- Modelled from the spec: whether a parsed JSON value actually has the
shape of the `StoredWaitlistData` interface (`{name, email, submittedAt}`
with string fields).  The source never checks this; the definition exists to
state what "valid StoredWaitlistData" means. -/
def isValidStoredData (v : JsonValue) : Bool :=
  match v with
  | .obj fields =>
      (jsonField fields "name").any JsonValue.isStr &&
      (jsonField fields "email").any JsonValue.isStr &&
      (jsonField fields "submittedAt").any JsonValue.isStr
  | _ => false

/-- What one execution of the `getStoredSubmission` try-block encounters:
`localStorage.getItem` throws (storage unavailable), or returns a falsy
value (`null` or `""`), or returns a string on which `JSON.parse` either
throws (not syntactically valid JSON) or returns a value `v`. -/
inductive StorageReadOutcome where
  | unavailable
  | absent
  | parseFailure
  | parsed (v : JsonValue)

/-- `getStoredSubmission`: the catch-all maps both thrown cases to `null`;
a falsy raw value returns `null`; a successful `JSON.parse` is returned
as-is — the `as StoredWaitlistData` cast performs no validation. -/
def getStoredSubmission : StorageReadOutcome → Option JsonValue
  | .unavailable => none
  | .absent => none
  | .parseFailure => none
  | .parsed v => some v

/-! ### HubSpot submission (`submitToHubSpot`, WaitlistSlider lines 52-82) -/

/-- How the `fetch` of the HubSpot POST settles: an HTTP response with some
status, or a rejection (network failure). -/
inductive FetchOutcome where
  | response (status : Nat)
  | failure
deriving DecidableEq

/-- `Response.ok`: status in the range 200-299. -/
def responseOk (status : Nat) : Bool :=
  decide (200 ≤ status) && decide (status ≤ 299)

/-- The `what_best_describes_you` field value sent to HubSpot. -/
def hubspotCategoryValue (category : String) : String :=
  if category = "artist" then "Artist"
  else if category = "customer" then "Customer"
  else ""

/-- The provider-field translation of the payload built by
`submitToHubSpot`. -/
def hubspotFields (data : FormData) : List (String × String) :=
  [("firstname", data.name), ("email", data.email), ("phone", data.phone),
   ("what_best_describes_you", hubspotCategoryValue data.category)]

/-- `submitToHubSpot`: `return res.ok` when the fetch resolves, and the
try/catch around the whole body collapses a rejection to `return false`, so
the function always returns a boolean. -/
def submitToHubSpot (data : FormData) (outcome : FetchOutcome) : Bool :=
  match outcome with
  | .response status => responseOk status
  | .failure => false

/-! ### Slider submit orchestration (`handleSubmit`, WaitlistSlider
lines 243-264) -/

structure TouchedFlags where
  name : Bool
  email : Bool
  phone : Bool
  category : Bool
deriving DecidableEq

/-- The slider state touched by `handleSubmit`; `stored` is the local
storage slot behind `storeSubmission`. -/
structure SliderState where
  formData : FormData
  errors : FormErrors
  touched : TouchedFlags
  isSubmitting : Bool
  isSuccess : Bool
  stored : Option StoredWaitlistData
deriving DecidableEq

/-- `handleSubmit`: touch all fields, re-validate, and stop when any error
key exists; otherwise await the HubSpot submission (`isSubmitting` is set
while awaiting and cleared after, so the settled state has it `false`) and
then — on `ok` and on `!ok` by the same two statements — write the local
cache and set `isSuccess`. -/
def handleSubmit (s : SliderState) (outcome : FetchOutcome)
    (nowIso : String) : SliderState :=
  let allTouched : TouchedFlags := ⟨true, true, true, true⟩
  let validationErrors := validate s.formData
  if validationErrors.keyCount > 0 then
    { s with touched := allTouched, errors := validationErrors }
  else
    let ok := submitToHubSpot s.formData outcome
    if ok then
      { s with touched := allTouched, errors := validationErrors,
               isSubmitting := false,
               stored := some (storeSubmission s.formData.name
                 s.formData.email nowIso),
               isSuccess := true }
    else
      { s with touched := allTouched, errors := validationErrors,
               isSubmitting := false,
               stored := some (storeSubmission s.formData.name
                 s.formData.email nowIso),
               isSuccess := true }

/-! ### Email client service (`sendWelcomeEmail`, email service
lines 23-50) -/

/-- The `EmailResponse` interface of the email service. -/
structure EmailResponse where
  success : Bool
  message : Option String
  error : Option String
deriving DecidableEq

/-- How `response.json()` settles: a rejection with the message of the
thrown error, or a parsed body with its optional `error` and `message`
string fields. -/
inductive JsonBodyOutcome where
  | failed (errMsg : String)
  | parsed (errorField : Option String) (messageField : Option String)

/-- How the whole `fetch` + `json()` pipeline settles: fetch rejected with
an error carrying a message, or resolved with `response.ok` and a body
outcome. -/
inductive EmailFetchOutcome where
  | rejected (errMsg : String)
  | resolved (ok : Bool) (body : JsonBodyOutcome)

/-- Whether every error thrown inside the modelled outcome carries a
nonempty message (true of real `fetch` network errors and JSON syntax
errors; the source falls back to the message of whatever was thrown). -/
def errorMessagesNonEmpty : EmailFetchOutcome → Bool
  | .rejected m => !(m == "")
  | .resolved _ (.failed m) => !(m == "")
  | .resolved _ (.parsed _ _) => true

/-- `sendWelcomeEmail`: the try-block awaits the fetch, then `json()`, then
throws `new Error(data.error || "Failed to send email")` on a non-ok
response; the catch turns any thrown `Error` into
`{success: false, error: error.message}`.  On an ok response with a parsed
body it returns `{success: true, message: data.message}`. -/
def sendWelcomeEmail (outcome : EmailFetchOutcome) : EmailResponse :=
  match outcome with
  | .rejected m => ⟨false, none, some m⟩
  | .resolved _ (.failed m) => ⟨false, none, some m⟩
  | .resolved ok (.parsed errorField messageField) =>
      if ok then
        ⟨true, messageField, none⟩
      else
        let thrown :=
          match errorField with
          | some e => if e = "" then "Failed to send email" else e
          | none => "Failed to send email"
        ⟨false, none, some thrown⟩

/-! ### The sanitizer order, in the words of the spec -/

/-- Removing all `<` and `>` characters, spelled as a recursion. -/
def removeAngles : List Char → List Char
  | [] => []
  | c :: rest =>
      if c = '<' ∨ c = '>' then removeAngles rest else c :: removeAngles rest

/-- Modelled from the spec: the result of trimming the input, then removing
all `<` and `>` characters, then truncating to at most 500 characters, in
that order. -/
def sanitizeSpecOrder (input : String) : String :=
  let trimmed := jsTrim input
  let stripped := removeAngles trimmed.toList
  ⟨stripped.take 500⟩

/-! ## Shared helper lemmas -/

theorem Ledger.get_set_self (m : Ledger) (k : String) (v : List Nat) :
    (m.set k v).get k = v := by
  induction m with
  | nil => simp [Ledger.set, Ledger.get]
  | cons p rest ih =>
      obtain ⟨k2, v2⟩ := p
      by_cases h : k2 = k
      · simp [Ledger.set, Ledger.get, h]
      · simp [Ledger.set, Ledger.get, h, ih]

theorem Ledger.get_set_ne (m : Ledger) (k e : String) (v : List Nat)
    (h : e ≠ k) : (m.set k v).get e = m.get e := by
  have hk : ¬ (k = e) := fun hh => h hh.symm
  induction m with
  | nil => simp [Ledger.set, Ledger.get, hk]
  | cons p rest ih =>
      obtain ⟨k2, v2⟩ := p
      by_cases h2 : k2 = k
      · subst h2
        simp [Ledger.set, Ledger.get, hk]
      · simp [Ledger.set, Ledger.get, h2, ih]

theorem removeAngles_eq_filter (l : List Char) :
    removeAngles l = l.filter (fun c => !(c == '<' || c == '>')) := by
  induction l with
  | nil => rfl
  | cons c rest ih =>
      simp only [removeAngles, List.filter_cons, ih]
      by_cases h1 : c = '<'
      · simp [h1]
      · by_cases h2 : c = '>'
        · simp [h2]
        · simp [h1, h2]

/-! ## Claim theorems -/

/-- Claim C5: for every form, `validate` reports a name error exactly when
the trimmed name has length < 2, independently of the other fields (which
are universally quantified and unconstrained here). -/
theorem validate_name_error_iff (data : FormData) :
    (validate data).name.isSome = true ↔ jsLength (jsTrim data.name) < 2 := by
  unfold validate
  by_cases h0 : jsTrim data.name = ""
  · simp [h0]
    decide
  · by_cases h1 : jsLength (jsTrim data.name) < 2
    · simp [h0, h1]
    · simp [h0, h1]

/-- Claim C6: `sanitizeInput` is exactly the composite described by the
spec — trim, then remove all angle-bracket characters, then truncate to at
most 500 characters, in that order. -/
theorem sanitizeInput_eq_specOrder (input : String) :
    sanitizeInput input = sanitizeSpecOrder input := by
  show (⟨((jsTrim input).toList.filter
      (fun c => !(c == '<' || c == '>'))).take 500⟩ : String) =
    ⟨(removeAngles (jsTrim input).toList).take 500⟩
  rw [removeAngles_eq_filter]

/-- Claim C7: `submitToHubSpot` resolves to `true` exactly when the provider
responded with an HTTP 2xx status; a network rejection or a non-2xx status
both give `false` (the function is total, so no exception reaches the
caller). -/
theorem submitToHubSpot_true_iff (data : FormData) (outcome : FetchOutcome) :
    submitToHubSpot data outcome = true ↔
      ∃ status, outcome = FetchOutcome.response status ∧
        200 ≤ status ∧ status ≤ 299 := by
  cases outcome with
  | response status => simp [submitToHubSpot, responseOk, and_assoc]
  | failure => simp [submitToHubSpot]

/-- Claim C8, counterexample: a stored raw string that parses as the JSON
number `42` is not a valid `StoredWaitlistData`, yet `getStoredSubmission`
returns it (non-null) — the `as StoredWaitlistData` cast never validates the
parsed shape. -/
theorem getStoredSubmission_no_shape_validation :
    getStoredSubmission (StorageReadOutcome.parsed (JsonValue.num 42))
        = some (JsonValue.num 42) ∧
    isValidStoredData (JsonValue.num 42) = false ∧
    getStoredSubmission (StorageReadOutcome.parsed (JsonValue.num 42))
        ≠ none := by
  refine ⟨rfl, rfl, ?_⟩
  simp [getStoredSubmission]

/-- Claim C8, amended: every failing read — storage unavailable, value
absent, or a stored value on which `JSON.parse` throws — yields `null`
(and the total function never throws); a value that parses successfully is
returned as-is, without shape validation. -/
theorem getStoredSubmission_failures_null (o : StorageReadOutcome) :
    (o = StorageReadOutcome.unavailable ∨ o = StorageReadOutcome.absent ∨
        o = StorageReadOutcome.parseFailure → getStoredSubmission o = none) ∧
    (∀ v, o = StorageReadOutcome.parsed v → getStoredSubmission o = some v) := by
  cases o <;> simp [getStoredSubmission]

/-- Witness for the amended C8 at concrete read outcomes. -/
theorem getStoredSubmission_failures_null_witness :
    getStoredSubmission StorageReadOutcome.unavailable = none ∧
    getStoredSubmission StorageReadOutcome.parseFailure = none ∧
    getStoredSubmission (StorageReadOutcome.parsed (JsonValue.str "x"))
      = some (JsonValue.str "x") :=
  ⟨(getStoredSubmission_failures_null _).1 (Or.inl rfl),
   (getStoredSubmission_failures_null _).1 (Or.inr (Or.inr rfl)),
   (getStoredSubmission_failures_null _).2 _ rfl⟩

/-- Claim C9: for every input, the sanitized string contains no `<` or `>`
and has length at most 500; the two values substituted into the email HTML
template — the first name extracted from a sanitized name and the role
label — likewise contain no `<` or `>`, so they can never introduce HTML
tags. -/
theorem sanitizeInput_template_safe (input role : String) :
    (sanitizeInput input).toList.all (fun c => !(c == '<' || c == '>')) = true ∧
    jsLength (sanitizeInput input) ≤ 500 ∧
    (templateFirstName (sanitizeInput input)).toList.all
      (fun c => !(c == '<' || c == '>')) = true ∧
    (templateRoleText role).toList.all
      (fun c => !(c == '<' || c == '>')) = true := by
  have hmem : ∀ c ∈ (sanitizeInput input).toList,
      (!(c == '<' || c == '>')) = true := by
    intro c hc
    have hc2 : c ∈ ((jsTrim input).toList.filter
        (fun c => !(c == '<' || c == '>'))).take 500 := hc
    have hc3 : c ∈ (jsTrim input).toList.filter
        (fun c => !(c == '<' || c == '>')) :=
      List.take_subset 500 _ hc2
    have hp := List.of_mem_filter hc3
    exact hp
  refine ⟨List.all_eq_true.mpr hmem, ?_, ?_, ?_⟩
  · have : (sanitizeInput input).toList.length ≤ 500 :=
      List.length_take_le 500 _
    exact this
  · rw [List.all_eq_true]
    intro c hc
    have hc2 : c ∈ (sanitizeInput input).toList.takeWhile
        (fun c => !(c == ' ')) := hc
    exact hmem c ((List.takeWhile_sublist _).subset hc2)
  · by_cases h : role = "artist" <;> simp [templateRoleText, h]

/-- Claim C3: whenever `validate` reports no errors on the current form, a
submit attempt ends in the Success state with the local submission cache
written, for both possible HubSpot outcomes — the `ok` and `!ok` branches
of `handleSubmit` perform the same cache write and success transition. -/
theorem handleSubmit_valid_always_success (s : SliderState)
    (outcome : FetchOutcome) (nowIso : String)
    (hvalid : (validate s.formData).keyCount = 0) :
    (handleSubmit s outcome nowIso).isSuccess = true ∧
    (handleSubmit s outcome nowIso).stored =
      some (storeSubmission s.formData.name s.formData.email nowIso) := by
  unfold handleSubmit
  simp [hvalid]

/-- Witness for C3 at a concrete fully valid form and a failed CRM call. -/
theorem handleSubmit_valid_always_success_witness :
    (handleSubmit ⟨⟨"Jo", "a@b.c", "1234567", "artist"⟩,
        ⟨none, none, none, none⟩, ⟨false, false, false, false⟩,
        false, false, none⟩ FetchOutcome.failure
        "2025-01-01T00:00:00.000Z").isSuccess = true ∧
    (handleSubmit ⟨⟨"Jo", "a@b.c", "1234567", "artist"⟩,
        ⟨none, none, none, none⟩, ⟨false, false, false, false⟩,
        false, false, none⟩ FetchOutcome.failure
        "2025-01-01T00:00:00.000Z").stored =
      some (storeSubmission "Jo" "a@b.c" "2025-01-01T00:00:00.000Z") :=
  handleSubmit_valid_always_success _ _ _ (by decide)

/-- Claim C1: starting from a map with no entries for the address, the first
three `isRateLimited` calls whose timestamps lie within one 3,600,000 ms
window return `false` (allowed), the fourth call within the same window
returns `true` (rate-limited); and a call whose single prior recorded
attempt lies 3,700,000 ms in the past returns `false` (window expired). -/
theorem isRateLimited_window (email : String) (t1 t2 t3 t4 T : Nat)
    (L0 L : Ledger) (h0 : L0.get email = []) (hT : L.get email = [T])
    (h12 : t1 ≤ t2) (h23 : t2 ≤ t3) (h34 : t3 ≤ t4)
    (hw : t4 - t1 < 3600000) :
    (isRateLimited t1 email L0).1 = false ∧
    (isRateLimited t2 email (isRateLimited t1 email L0).2).1 = false ∧
    (isRateLimited t3 email
      (isRateLimited t2 email (isRateLimited t1 email L0).2).2).1 = false ∧
    (isRateLimited t4 email (isRateLimited t3 email
      (isRateLimited t2 email (isRateLimited t1 email L0).2).2).2).1 = true ∧
    (isRateLimited (T + 3700000) email L).1 = false := by
  have h24 : t2 ≤ t4 := le_trans h23 h34
  have hw2 : t2 - t1 < 3600000 :=
    lt_of_le_of_lt (Nat.sub_le_sub_right h24 t1) hw
  have hw3a : t3 - t1 < 3600000 :=
    lt_of_le_of_lt (Nat.sub_le_sub_right h34 t1) hw
  have hw3b : t3 - t2 < 3600000 :=
    lt_of_le_of_lt (Nat.sub_le_sub_left h12 t3) hw3a
  have hw4b : t4 - t2 < 3600000 :=
    lt_of_le_of_lt (Nat.sub_le_sub_left h12 t4) hw
  have hw4c : t4 - t3 < 3600000 :=
    lt_of_le_of_lt (Nat.sub_le_sub_left h23 t4) hw4b
  have e1 : isRateLimited t1 email L0 = (false, L0.set email [t1]) := by
    simp [isRateLimited, h0]
  have g1 : (L0.set email [t1]).get email = [t1] :=
    Ledger.get_set_self L0 email [t1]
  have e2 : isRateLimited t2 email (L0.set email [t1]) =
      (false, (L0.set email [t1]).set email [t1, t2]) := by
    simp [isRateLimited, g1, hw2]
  have g2 : ((L0.set email [t1]).set email [t1, t2]).get email = [t1, t2] :=
    Ledger.get_set_self _ email [t1, t2]
  have e3 : isRateLimited t3 email ((L0.set email [t1]).set email [t1, t2]) =
      (false, ((L0.set email [t1]).set email [t1, t2]).set email
        [t1, t2, t3]) := by
    simp [isRateLimited, g2, hw3a, hw3b]
  have g3 : (((L0.set email [t1]).set email [t1, t2]).set email
      [t1, t2, t3]).get email = [t1, t2, t3] :=
    Ledger.get_set_self _ email [t1, t2, t3]
  have e4 : (isRateLimited t4 email (((L0.set email [t1]).set email
      [t1, t2]).set email [t1, t2, t3])).1 = true := by
    simp [isRateLimited, g3, hw, hw4b, hw4c]
  have e5 : (isRateLimited (T + 3700000) email L).1 = false := by
    have hx : ¬ (T + 3700000 - T < 3600000) := by
      rw [Nat.add_sub_cancel_left T 3700000]
      decide
    simp [isRateLimited, hT, hx]
  refine ⟨?_, ?_, ?_, ?_, e5⟩
  · simp [e1]
  · simp [e1, e2]
  · simp [e1, e2, e3]
  · simp [e1, e2, e3, e4]

/-- Witness for C1 at concrete timestamps 0, 1, 2, 3 and an expired prior
attempt at 5 checked at 3700005. -/
theorem isRateLimited_window_witness :
    (isRateLimited 0 "a" []).1 = false ∧
    (isRateLimited 1 "a" (isRateLimited 0 "a" []).2).1 = false ∧
    (isRateLimited 2 "a"
      (isRateLimited 1 "a" (isRateLimited 0 "a" []).2).2).1 = false ∧
    (isRateLimited 3 "a" (isRateLimited 2 "a"
      (isRateLimited 1 "a" (isRateLimited 0 "a" []).2).2).2).1 = true ∧
    (isRateLimited (5 + 3700000) "a" [("a", [5])]).1 = false :=
  isRateLimited_window "a" 0 1 2 3 5 [] [("a", [5])] rfl (by decide)
    (by decide) (by decide) (by decide) (by decide)

/-- Claim C4, counterexample: on a rejected call nothing is stored back, so
a stale entry survives — with `"a"` mapped to `[0, 5000000, 5000001,
5000002]`, the call at 5000003 is rejected and afterwards the stored list
still contains the entry `0`, which is 5000003 ms (≥ 3,600,000 ms) in the
past.  This refutes "the filtered list is stored back whether the call was
allowed or rejected". -/
theorem isRateLimited_stale_after_reject :
    (isRateLimited 5000003 "a"
      [("a", [0, 5000000, 5000001, 5000002])]).1 = true ∧
    (isRateLimited 5000003 "a"
      [("a", [0, 5000000, 5000001, 5000002])]).2.get "a" =
      [0, 5000000, 5000001, 5000002] ∧
    (0 : Nat) ∈ (isRateLimited 5000003 "a"
      [("a", [0, 5000000, 5000001, 5000002])]).2.get "a" ∧
    ¬ ((5000003 : Nat) - 0 < 3600000) := by decide

/-- Claim C4, amended: on an allowed call the filtered (pruned) list plus
the current timestamp — never the original list — is stored back, so after
an allowed call every entry stored for the address lies within the
3,600,000 ms window; a rejected call leaves the map unchanged.  Provided the
stored list for the address has at most 3 entries — an invariant every call
preserves from the empty initial map, as the second and third conjuncts
show — even after a rejected call every entry stored for the address lies
within the window, because rejection then requires all of its entries to be
recent. -/
theorem isRateLimited_prune (now : Nat) (email : String) (m : Ledger)
    (hlen : (m.get email).length ≤ 3) :
    (∀ t ∈ (isRateLimited now email m).2.get email, now - t < 3600000) ∧
    ((isRateLimited now email m).2.get email).length ≤ 3 ∧
    (∀ e, e ≠ email → (isRateLimited now email m).2.get e = m.get e) ∧
    ((isRateLimited now email m).1 = true →
      (isRateLimited now email m).2 = m) ∧
    ((isRateLimited now email m).1 = false →
      (isRateLimited now email m).2.get email =
        (m.get email).filter (fun time => now - time < 3600000) ++ [now]) := by
  by_cases hge : 3 ≤ ((m.get email).filter
      (fun time => decide (now - time < 3600000))).length
  · have er : isRateLimited now email m = (true, m) := by
      simp [isRateLimited, hge]
    have hfeq : (m.get email).filter
        (fun time => decide (now - time < 3600000)) = m.get email := by
      refine (List.filter_sublist (m.get email)).eq_of_length ?_
      exact le_antisymm
        (List.Sublist.length_le (List.filter_sublist (m.get email)))
        (le_trans hlen hge)
    refine ⟨?_, ?_, ?_, ?_, ?_⟩
    · intro t ht
      rw [er] at ht
      have ht2 : t ∈ (m.get email).filter
          (fun time => decide (now - time < 3600000)) := by
        rw [hfeq]; exact ht
      have hp := List.of_mem_filter ht2
      exact of_decide_eq_true hp
    · rw [er]; exact hlen
    · intro e he; rw [er]
    · intro _; rw [er]
    · intro hfalse; rw [er] at hfalse; cases hfalse
  · have ea : isRateLimited now email m = (false, m.set email
        ((m.get email).filter (fun time => decide (now - time < 3600000))
          ++ [now])) := by
      simp [isRateLimited, hge]
    have gs : (m.set email ((m.get email).filter
        (fun time => decide (now - time < 3600000)) ++ [now])).get email =
        (m.get email).filter (fun time => decide (now - time < 3600000))
          ++ [now] :=
      Ledger.get_set_self m email _
    refine ⟨?_, ?_, ?_, ?_, ?_⟩
    · intro t ht
      rw [ea] at ht
      simp only at ht
      rw [gs] at ht
      rcases List.mem_append.mp ht with hin | hin
      · have hp := List.of_mem_filter hin
        exact of_decide_eq_true hp
      · have : t = now := List.mem_singleton.mp hin
        subst this
        simp
    · rw [ea]
      simp only
      rw [gs]
      have hl2 : ((m.get email).filter
          (fun time => decide (now - time < 3600000))).length ≤ 2 :=
        Nat.lt_succ_iff.mp (Nat.lt_of_not_le hge)
      simp [List.length_append]
      omega
    · intro e he
      rw [ea]
      simp only
      exact Ledger.get_set_ne m email e _ he
    · intro htrue; rw [ea] at htrue; cases htrue
    · intro _
      rw [ea]
      simp only
      exact gs

/-- Witness for the amended C4: a rejected call leaves the map unchanged. -/
theorem isRateLimited_prune_witness :
    (isRateLimited 9 "a" [("a", [1, 2, 3])]).1 = true ∧
    (isRateLimited 9 "a" [("a", [1, 2, 3])]).2 = [("a", [1, 2, 3])] :=
  ⟨by decide,
   (isRateLimited_prune 9 "a" [("a", [1, 2, 3])] (by decide)).2.2.2.1
     (by decide)⟩

/-- Claim C2: the email endpoint returns 405 for every method other than
POST and OPTIONS; 400 whenever any of `name`, `email`, `role` is missing
(or empty), and 400 when the sanitized role is neither `"artist"` nor
`"customer"` once the earlier gates pass; and for the request
`{name: "Jo", email: "jo@x.com", role: "artist"}` with configured relay
credentials and a successful dispatch it returns 200 with `success: true`. -/
theorem handler_gates (req : EmailRequest) (env : SmtpEnv) (now : Nat)
    (m : Ledger) (sendOk : Bool) :
    (req.method ≠ "POST" → req.method ≠ "OPTIONS" →
      (handler req env now m sendOk).1.status = 405) ∧
    (req.method = "POST" → falsy env.smtpUser = false →
      falsy env.smtpPass = false →
      (falsy req.name || falsy req.email || falsy req.role) = true →
      (handler req env now m sendOk).1.status = 400) ∧
    (req.method = "POST" → falsy env.smtpUser = false →
      falsy env.smtpPass = false → falsy req.name = false →
      falsy req.email = false → falsy req.role = false →
      emailRegexTest (jsToLower (sanitizeInput (req.email.getD ""))) = true →
      sanitizeInput (req.role.getD "") ≠ "artist" →
      sanitizeInput (req.role.getD "") ≠ "customer" →
      (handler req env now m sendOk).1.status = 400) ∧
    (∀ origin u p : String, u ≠ "" → p ≠ "" →
      (handler ⟨"POST", origin, some "Jo", some "jo@x.com", some "artist"⟩
        ⟨some u, some p⟩ now [] true).1.status = 200 ∧
      (handler ⟨"POST", origin, some "Jo", some "jo@x.com", some "artist"⟩
        ⟨some u, some p⟩ now [] true).1.success = true) := by
  refine ⟨?_, ?_, ?_, ?_⟩
  · intro hpost hopt
    simp [handler, hpost, hopt]
  · intro hm hu hp hf
    simp [handler, hm, hu, hp, hf]
  · intro hm hu hp hn he hr hre hra hrc
    simp [handler, hm, hu, hp, hn, he, hr, hre, hra, hrc]
  · intro origin u p hu hp
    have h1 : falsy (some u) = false := by simp [falsy, hu]
    have h2 : falsy (some p) = false := by simp [falsy, hp]
    have c1 : falsy (some "Jo") = false := by decide
    have c2 : falsy (some "jo@x.com") = false := by decide
    have c3 : falsy (some "artist") = false := by decide
    have c4 : emailRegexTest (jsToLower (sanitizeInput "jo@x.com")) = true :=
      by decide
    have c5 : sanitizeInput "artist" = "artist" := by decide
    have c6 : (jsLength (sanitizeInput "Jo") < 2 ∨
        jsLength (sanitizeInput "Jo") > 100) = False := by
      simp
      decide
    have c7 : (isRateLimited now (jsToLower (sanitizeInput "jo@x.com")) []).1
        = false := by
      simp [isRateLimited, Ledger.get]
    constructor <;>
      simp [handler, h1, h2, c1, c2, c3, c4, c5, c6, c7]

/-- Witness for C2: a GET request (405), a request without an email (400),
a request with role `"manager"` (400), and the valid artist request
(200, success). -/
theorem handler_gates_witness :
    (handler ⟨"GET", "", none, none, none⟩ ⟨some "u", some "p"⟩ 0 []
      true).1.status = 405 ∧
    (handler ⟨"POST", "", some "Jo", none, some "artist"⟩
      ⟨some "u", some "p"⟩ 0 [] true).1.status = 400 ∧
    (handler ⟨"POST", "", some "Jo", some "jo@x.com", some "manager"⟩
      ⟨some "u", some "p"⟩ 0 [] true).1.status = 400 ∧
    (handler ⟨"POST", "", some "Jo", some "jo@x.com", some "artist"⟩
      ⟨some "u", some "p"⟩ 0 [] true).1.status = 200 ∧
    (handler ⟨"POST", "", some "Jo", some "jo@x.com", some "artist"⟩
      ⟨some "u", some "p"⟩ 0 [] true).1.success = true := by
  refine ⟨?_, ?_, ?_, ?_⟩
  · exact (handler_gates ⟨"GET", "", none, none, none⟩ ⟨some "u", some "p"⟩
      0 [] true).1 (by decide) (by decide)
  · exact (handler_gates ⟨"POST", "", some "Jo", none, some "artist"⟩
      ⟨some "u", some "p"⟩ 0 [] true).2.1 rfl (by decide) (by decide)
      (by decide)
  · exact (handler_gates
      ⟨"POST", "", some "Jo", some "jo@x.com", some "manager"⟩
      ⟨some "u", some "p"⟩ 0 [] true).2.2.1 rfl (by decide) (by decide)
      (by decide) (by decide) (by decide) (by decide) (by decide) (by decide)
  · exact (handler_gates
      ⟨"POST", "", some "Jo", some "jo@x.com", some "artist"⟩
      ⟨some "u", some "p"⟩ 0 [] true).2.2.2 "" "u" "p" (by decide)
      (by decide)

/-- Claim C10: `sendWelcomeEmail` is a total function into `EmailResponse`
(so it never throws or rejects); it succeeds with the server message
exactly on a 2xx (`ok`) response with a parsable body, and in every other
outcome — network rejection, unparsable body, non-ok response — it reports
`success: false` with a nonempty error string (assuming, as for real fetch
and JSON errors, that thrown errors carry nonempty messages). -/
theorem sendWelcomeEmail_outcomes (outcome : EmailFetchOutcome)
    (h : errorMessagesNonEmpty outcome = true) :
    ((sendWelcomeEmail outcome).success = true ↔
      ∃ errorField messageField,
        outcome = EmailFetchOutcome.resolved true
          (JsonBodyOutcome.parsed errorField messageField)) ∧
    (∀ errorField messageField,
      outcome = EmailFetchOutcome.resolved true
          (JsonBodyOutcome.parsed errorField messageField) →
        sendWelcomeEmail outcome = ⟨true, messageField, none⟩) ∧
    ((sendWelcomeEmail outcome).success = false →
      ∃ e, (sendWelcomeEmail outcome).error = some e ∧ e ≠ "") := by
  cases outcome with
  | rejected msg =>
      have hm : ¬ (msg = "") := by
        simpa [errorMessagesNonEmpty] using h
      refine ⟨?_, ?_, ?_⟩
      · simp [sendWelcomeEmail]
      · intro a b hab; cases hab
      · intro _; exact ⟨msg, rfl, hm⟩
  | resolved ok body =>
      cases body with
      | failed msg =>
          have hm : ¬ (msg = "") := by
            simpa [errorMessagesNonEmpty] using h
          refine ⟨?_, ?_, ?_⟩
          · simp [sendWelcomeEmail]
          · intro a b hab; cases hab
          · intro _; exact ⟨msg, rfl, hm⟩
      | parsed errorField messageField =>
          cases ok with
          | true =>
              refine ⟨?_, ?_, ?_⟩
              · simp [sendWelcomeEmail]
              · intro a b hab
                injection hab with hok hbody
                injection hbody with ha hb
                subst ha; subst hb
                rfl
              · intro hfalse
                simp [sendWelcomeEmail] at hfalse
          | false =>
              refine ⟨?_, ?_, ?_⟩
              · simp [sendWelcomeEmail]
              · intro a b hab; cases hab
              · intro _
                cases errorField with
                | none =>
                    exact ⟨"Failed to send email", rfl, by decide⟩
                | some e =>
                    by_cases he : e = ""
                    · refine ⟨"Failed to send email", ?_, by decide⟩
                      simp [sendWelcomeEmail, he]
                    · refine ⟨e, ?_, he⟩
                      simp [sendWelcomeEmail, he]

/-- Witness for C10: a 2xx response with a parsed body succeeds with the
server message; a network rejection yields a nonempty error. -/
theorem sendWelcomeEmail_outcomes_witness :
    sendWelcomeEmail (EmailFetchOutcome.resolved true
        (JsonBodyOutcome.parsed none (some "Email sent successfully")))
      = ⟨true, some "Email sent successfully", none⟩ ∧
    (∃ e, (sendWelcomeEmail
        (EmailFetchOutcome.rejected "fetch failed")).error = some e ∧
      e ≠ "") :=
  ⟨(sendWelcomeEmail_outcomes _ (by decide)).2.1 none
      (some "Email sent successfully") rfl,
   (sendWelcomeEmail_outcomes _ (by decide)).2.2 rfl⟩

end Mimora

